import Mathlib

/-
Verification of the Barrel Monitor API test-suite helpers and models
(trafin-oil-playwright): a shallow embedding of the Zod entity schemas
(src/models/barrel.model.ts, src/models/measurement.model.ts), the fixture
generators and response validators (src/helpers/barrel.helper.ts,
src/helpers/measurement.helper.ts), and the assertion sequences of the
negative measurement scenarios.

JSON values are modelled by an inductive type; JavaScript numbers are
modelled as rationals (all JSON numerals are finite decimals, and none of
the verified properties depends on binary rounding).  Randomness from the
faker library enters as explicit parameters, constrained by predicates
stating faker's documented output guarantees.
-/

namespace BarrelMonitor

/-- A JSON value as produced by response.json() / sent as a request body.
Objects are ordered key-value lists; JavaScript property access reads the
first binding of a key. -/
inductive Json where
  | null : Json
  | bool (b : Bool) : Json
  | num (q : ℚ) : Json
  | str (s : String) : Json
  | arr (xs : List Json) : Json
  | obj (fs : List (String × Json)) : Json

/-- First binding of a key in an object's field list (JS property lookup);
none models the value being absent (undefined). -/
def lookupField : List (String × Json) → String → Option Json
  | [], _ => none
  | (k, v) :: rest, key => if k = key then some v else lookupField rest key

/-- Property access v[k]: undefined (none) unless v is an object holding k. -/
def Json.getField : Json → String → Option Json
  | .obj fs, k => lookupField fs k
  | _, _ => none

/-- Two-step property access v[k1][k2], undefined-propagating: models the
expression response.errors.Field, which fails the enclosing expect whenever
any step is missing. -/
def Json.getField2 (v : Json) (k1 k2 : String) : Option Json :=
  match v.getField k1 with
  | some w => w.getField k2
  | none => none

/-- JavaScript truthiness of a JSON value (expect(x).toBeTruthy()):
null, false, 0 and the empty string are falsy; arrays and objects are
always truthy. -/
def Json.truthy : Json → Bool
  | .null => false
  | .bool b => b
  | .num q => !(q = 0)
  | .str s => !(s = "")
  | .arr _ => true
  | .obj _ => true

/-- Truthiness of a possibly-undefined value: undefined is falsy. -/
def optTruthy : Option Json → Bool
  | none => false
  | some v => v.truthy

/-- Indexing x[0] on a JSON array; undefined on anything else. -/
def index0 : Option Json → Option Json
  | some (.arr (x :: _)) => some x
  | _ => none

/-- expect(x[0]).toBe(msg) for a string constant msg: strict equality, so it
passes exactly when the first array element exists and is that string. -/
def firstIsMsg (o : Option Json) (msg : String) : Bool :=
  match index0 o with
  | some (.str m) => m = msg
  | _ => false

/-- Hexadecimal digit, either case. -/
def isHexDigit (c : Char) : Bool :=
  c.isDigit || ('a' ≤ c && c ≤ 'f') || ('A' ≤ c && c ≤ 'F')

/-- Character admitted at position i of a 36-character UUID by the zod v4
uuid regexp: dashes at 8, 13, 18, 23; version digit 1-8 at 14; variant
8, 9, a or b at 19; hex digits elsewhere. -/
def uuidCharOk (i : Nat) (c : Char) : Bool :=
  if i = 8 || i = 13 || i = 18 || i = 23 then c = '-'
  else if i = 14 then '1' ≤ c && c ≤ '8'
  else if i = 19 then c = '8' || c = '9' || c = 'a' || c = 'b' || c = 'A' || c = 'B'
  else isHexDigit c

/-- The z.uuid() string test of zod v4 (RFC 9562 shape, any version 1-8,
plus the nil UUID special case). -/
def isUuid (s : String) : Bool :=
  (s.length = 36 && s.data.enum.all fun ic => uuidCharOk ic.1 ic.2)
  || s = "00000000-0000-0000-0000-000000000000"

/-- Largest finite float32 value, 3.4028234663852886e38, as a rational
numeral (34028234663852886 followed by 22 zeros). -/
def float32Max : ℚ := 340282346638528860000000000000000000000

/-- The z.float32() check: a finite number within the float32 range.
(zod v4 range-checks the number; it does not constrain its sign.) -/
def isFloat32 : Json → Bool
  | .num q => decide (-float32Max ≤ q) && decide (q ≤ float32Max)
  | _ => false

/-- The z.string() check. -/
def isString : Json → Bool
  | .str _ => true
  | _ => false

/-- The z.string().min(1) check: a string of length at least 1. -/
def isStringMin1 : Json → Bool
  | .str s => decide (1 ≤ s.length)
  | _ => false

/-- The z.uuid() check as a value test: a string matching the uuid shape. -/
def isUuidJson : Json → Bool
  | .str s => isUuid s
  | _ => false

/-- An .optional() field: absent (undefined) passes; a present value must
satisfy the base check (in particular null fails). -/
def optionalField (check : Json → Bool) : Option Json → Bool
  | none => true
  | some v => check v

/-- A required field: must be present and satisfy the check. -/
def requiredField (check : Json → Bool) : Option Json → Bool
  | none => false
  | some v => check v

/-- barrelObject.safeParse(v).success: v is an object whose optional id is a
string and whose qr, rfid and nfc are non-empty strings; unknown keys are
stripped, not rejected (zod object default). -/
def barrelSafeParse (v : Json) : Bool :=
  match v with
  | .obj fs =>
      optionalField isString (lookupField fs "id")
      && requiredField isStringMin1 (lookupField fs "qr")
      && requiredField isStringMin1 (lookupField fs "rfid")
      && requiredField isStringMin1 (lookupField fs "nfc")
  | _ => false

/-- measurementObject.safeParse(v).success: v is an object whose optional id
is a UUID string, whose barrelId is a UUID string, and whose dirtLevel and
weight are float32 numbers. -/
def measurementSafeParse (v : Json) : Bool :=
  match v with
  | .obj fs =>
      optionalField isUuidJson (lookupField fs "id")
      && requiredField isUuidJson (lookupField fs "barrelId")
      && requiredField isFloat32 (lookupField fs "dirtLevel")
      && requiredField isFloat32 (lookupField fs "weight")
  | _ => false

/-- The pattern is an initial segment of the character list. -/
def startsWithChars : List Char → List Char → Bool
  | [], _ => true
  | _ :: _, [] => false
  | p :: ps, c :: cs => p = c && startsWithChars ps cs

/-- The pattern occurs as a contiguous segment of the character list. -/
def containsChars (cs pat : List Char) : Bool :=
  startsWithChars pat cs ||
    match cs with
    | [] => false
    | _ :: rest => containsChars rest pat

/-- Substring containment, expect(s).toContain(pat) on strings. -/
def strContains (s pat : String) : Bool := containsChars s.data pat.data

/-- An APIResponse as the validators consume it: the content-type header (a
missing header is none) and the result of response.json() (none when the
body is not JSON, in which case the await throws and the test fails). -/
structure APIResponseModel where
  contentType : Option String
  body : Option Json

/-- expect(headers()[content-type]).toContain(appjson): a missing header is
undefined and toContain on it fails. -/
def contentTypeOk : Option String → Bool
  | none => false
  | some ct => strContains ct "application/json"

/-- checkBarrelResponseAndReturnBody: asserts the content-type contains
application/json, parses the body, asserts it truthy, asserts
barrelObject.safeParse success, and returns the body; a failed expect
throws, so no value is returned (none). -/
def checkBarrelResponseAndReturnBody (r : APIResponseModel) : Option Json :=
  if contentTypeOk r.contentType then
    match r.body with
    | some b => if b.truthy && barrelSafeParse b then some b else none
    | none => none
  else none

/-- checkMeasurementResponseAndReturnBody: as for barrels, with
measurementObject.safeParse as the schema check. -/
def checkMeasurementResponseAndReturnBody (r : APIResponseModel) : Option Json :=
  if contentTypeOk r.contentType then
    match r.body with
    | some b => if b.truthy && measurementSafeParse b then some b else none
    | none => none
  else none

/-- The fixed title asserted by checkErrorResponse. -/
def validationErrorMessage : String := "One or more validation errors occurred."

/-- checkErrorResponse: the response is truthy, its title strictly equals
the fixed validation-error message, and its errors member is truthy. -/
def checkErrorResponse (v : Json) : Bool :=
  v.truthy
  && (match v.getField "title" with
      | some (.str t) => t = validationErrorMessage
      | _ => false)
  && optTruthy (v.getField "errors")

/-- checkQrRequiredErrorResponse: generic envelope, then errors.Qr truthy
and errors.Qr[0] strictly equal to the fixed message. -/
def checkQrRequiredErrorResponse (v : Json) : Bool :=
  checkErrorResponse v
  && optTruthy (v.getField2 "errors" "Qr")
  && firstIsMsg (v.getField2 "errors" "Qr") "The Qr field is required."

/-- checkRfidRequiredErrorResponse. -/
def checkRfidRequiredErrorResponse (v : Json) : Bool :=
  checkErrorResponse v
  && optTruthy (v.getField2 "errors" "Rfid")
  && firstIsMsg (v.getField2 "errors" "Rfid") "The Rfid field is required."

/-- checkNfcRequiredErrorResponse. -/
def checkNfcRequiredErrorResponse (v : Json) : Bool :=
  checkErrorResponse v
  && optTruthy (v.getField2 "errors" "Nfc")
  && firstIsMsg (v.getField2 "errors" "Nfc") "The Nfc field is required."

/-- checkBarrelIdRequiredErrorResponse. -/
def checkBarrelIdRequiredErrorResponse (v : Json) : Bool :=
  checkErrorResponse v
  && optTruthy (v.getField2 "errors" "BarrelId")
  && firstIsMsg (v.getField2 "errors" "BarrelId") "The BarrelId field is required."

/-- checkDirtLevelRequiredErrorResponse; note the source's fixed message
capitalises Dirtlevel while the field key is DirtLevel. -/
def checkDirtLevelRequiredErrorResponse (v : Json) : Bool :=
  checkErrorResponse v
  && optTruthy (v.getField2 "errors" "DirtLevel")
  && firstIsMsg (v.getField2 "errors" "DirtLevel") "The Dirtlevel field is required."

/-- checkWeightRequiredErrorResponse. -/
def checkWeightRequiredErrorResponse (v : Json) : Bool :=
  checkErrorResponse v
  && optTruthy (v.getField2 "errors" "Weight")
  && firstIsMsg (v.getField2 "errors" "Weight") "The Weight field is required."

/-- The random strings drawn by prepareBarrelObject from faker. -/
structure BarrelFixtureRandom where
  nanoidStr : String
  ulidStr : String
  alphaStr : String

/-- Alphabet of faker.string.nanoid(): url-safe characters A-Za-z0-9_-. -/
def isNanoidChar (c : Char) : Bool := c.isAlphanum || c = '_' || c = '-'

/-- faker.string.nanoid() output guarantee: 21 url-safe characters. -/
def nanoidValid (s : String) : Bool := s.length = 21 && s.data.all isNanoidChar

/-- Crockford base32 alphabet used by ULIDs: digits and uppercase letters
except I, L, O, U. -/
def isCrockfordChar (c : Char) : Bool :=
  c.isDigit || (c.isUpper && !(c = 'I') && !(c = 'L') && !(c = 'O') && !(c = 'U'))

/-- faker.string.ulid() output guarantee: 26 Crockford base32 characters. -/
def ulidValid (s : String) : Bool := s.length = 26 && s.data.all isCrockfordChar

/-- faker.string.alpha(20) output guarantee: 20 ASCII letters. -/
def alphaValid (s : String) : Bool := s.length = 20 && s.data.all Char.isAlpha

/-- All three faker draws meet their documented guarantees. -/
def barrelFixtureValid (r : BarrelFixtureRandom) : Bool :=
  nanoidValid r.nanoidStr && ulidValid r.ulidStr && alphaValid r.alphaStr

/-- prepareBarrelObject: the object literal with qr drawn from nanoid, rfid
from ulid and nfc from alpha(20); pure value construction, no id key. -/
def prepareBarrelObject (r : BarrelFixtureRandom) : Json :=
  .obj [("qr", .str r.nanoidStr), ("rfid", .str r.ulidStr), ("nfc", .str r.alphaStr)]

/-- faker.number.float({min, max, fractionDigits: fd}) output guarantee:
a number in [min, max] that is an integer multiple of 10^-fd. -/
def fakerFloatValid (lo hi : ℚ) (fd : Nat) (q : ℚ) : Prop :=
  lo ≤ q ∧ q ≤ hi ∧ ∃ n : ℤ, q = (n : ℚ) / 10 ^ fd

/-- prepareMeasurementObject(barrelId): the object literal binding barrelId
to the argument and the two measurement fields to faker floats (dirtLevel
from min 1.0 max 95.0 fractionDigits 2, weight from min 100 max 200
fractionDigits 1); pure value construction, no id key. -/
def prepareMeasurementObject (barrelId : String) (dirtLevel weight : ℚ) : Json :=
  .obj [("barrelId", .str barrelId), ("dirtLevel", .num dirtLevel), ("weight", .num weight)]

/-- The request body of the test Dirt level is negative number:
barrelId from the fixture barrel, dirtLevel -10, weight 10. -/
def dirtLevelNegativePayload (barrelId : String) : Json :=
  .obj [("barrelId", .str barrelId), ("dirtLevel", .num (-10)), ("weight", .num 10)]

/-- The assertion sequence of the test Dirt level is negative number on the
observed status and parsed body: status 400, generic envelope,
errors.DirtLevel truthy, errors.DirtLevel[0] truthy and strictly equal to
the fixed positivity message. -/
def dirtLevelNegativeAssertions (status : Nat) (body : Json) : Bool :=
  (status = 400)
  && checkErrorResponse body
  && optTruthy (body.getField2 "errors" "DirtLevel")
  && optTruthy (index0 (body.getField2 "errors" "DirtLevel"))
  && firstIsMsg (body.getField2 "errors" "DirtLevel") "DirtLevel must be positive number"

/-- The request body of the test Weight is negative number. -/
def weightNegativePayload (barrelId : String) : Json :=
  .obj [("barrelId", .str barrelId), ("dirtLevel", .num 10), ("weight", .num (-10))]

/-- The assertion sequence of the test Weight is negative number. -/
def weightNegativeAssertions (status : Nat) (body : Json) : Bool :=
  (status = 400)
  && checkErrorResponse body
  && optTruthy (body.getField2 "errors" "Weight")
  && firstIsMsg (body.getField2 "errors" "Weight") "Weight must be positive number"

/-- The ten distinct payloads of the test Create multiple barrels
concurrently: index i (from 0) yields concurrent_qr_i+1 and so on. -/
def concurrentBarrelPayloads : List Json :=
  (List.range 10).map fun i =>
    .obj [("qr", .str ("concurrent_qr_" ++ toString (i + 1))),
          ("rfid", .str ("concurrent_rfid_" ++ toString (i + 1))),
          ("nfc", .str ("concurrent_nfc_" ++ toString (i + 1)))]

/-- The qr string of a payload, used to separate the ten concurrent
payloads from one another. -/
def qrOf (v : Json) : String :=
  match v.getField "qr" with
  | some (.str s) => s
  | _ => ""

/-- The loop of assertions after Promise.all: every response independently
has status 201. -/
def concurrentAssertionsPass (statuses : List Nat) : Bool :=
  statuses.all fun s => s = 201

/-- A well-typed validation-error envelope (the ErrorResponse family):
title string and errors mapping field keys to lists of message strings, as
serialised to JSON by the server. -/
def errJson (title : String) (errors : List (String × List String)) : Json :=
  .obj [("title", .str title),
        ("errors", .obj (errors.map fun ke => (ke.1, .arr (ke.2.map .str))))]

/-- First binding of a key in a typed errors mapping. -/
def lookupErrors : List (String × List String) → String → Option (List String)
  | [], _ => none
  | (k, ms) :: rest, key => if k = key then some ms else lookupErrors rest key

section Theorems

/-- The float32 range easily accommodates every numeric constant of the
suite. -/
lemma le_float32Max_of_le_200 {q : ℚ} (h : q ≤ 200) : q ≤ float32Max := by
  have : (200 : ℚ) ≤ float32Max := by norm_num [float32Max]
  linarith

lemma neg_float32Max_le_of_le {q : ℚ} (h : 0 ≤ q) : -float32Max ≤ q := by
  have : (0 : ℚ) ≤ float32Max := by norm_num [float32Max]
  linarith

/-- C1 counterexample: a measurement whose dirtLevel is the negative number
-10 nevertheless passes measurementObject.safeParse, because z.float32()
only range-checks the number and does not constrain its sign. -/
theorem measurementSchema_accepts_negative_dirtLevel :
    measurementSafeParse
      (Json.obj [("barrelId", Json.str "123e4567-e89b-12d3-a456-426614174000"),
                 ("dirtLevel", Json.num (-10)), ("weight", Json.num 10)]) = true
    ∧ (-10 : ℚ) < 0 := by
  constructor
  · have hu : isUuid "123e4567-e89b-12d3-a456-426614174000" = true := by decide
    simp only [measurementSafeParse, lookupField, optionalField, requiredField, isUuidJson,
      isFloat32]
    simp [hu, float32Max]
    norm_num
  · norm_num

/-- C1 (amended): measurementObject.safeParse enforces the UUID format of
id and barrelId and the float32 range of dirtLevel and weight, but not the
sign of the numbers: every object with UUID identifiers and in-range
numbers passes, whether or not the numbers are non-negative. -/
theorem measurementSchema_checks_format_not_sign :
    (∀ (bid : String) (d w : ℚ), isUuid bid = true →
      -float32Max ≤ d → d ≤ float32Max → -float32Max ≤ w → w ≤ float32Max →
      measurementSafeParse
        (Json.obj [("barrelId", Json.str bid),
                   ("dirtLevel", Json.num d), ("weight", Json.num w)]) = true)
    ∧ (∀ (i bid : String) (d w : ℚ), isUuid i = true → isUuid bid = true →
      -float32Max ≤ d → d ≤ float32Max → -float32Max ≤ w → w ≤ float32Max →
      measurementSafeParse
        (Json.obj [("id", Json.str i), ("barrelId", Json.str bid),
                   ("dirtLevel", Json.num d), ("weight", Json.num w)]) = true) := by
  constructor
  · intro bid d w hb hd1 hd2 hw1 hw2
    simp [measurementSafeParse, lookupField, optionalField, requiredField, isUuidJson, hb,
      isFloat32, hd1, hd2, hw1, hw2]
  · intro i bid d w hi hb hd1 hd2 hw1 hw2
    simp [measurementSafeParse, lookupField, optionalField, requiredField, isUuidJson, hi, hb,
      isFloat32, hd1, hd2, hw1, hw2]

/-- C1 witness: the amended theorem applied to a concrete in-range
measurement with UUID barrelId. -/
theorem measurementSchema_checks_format_not_sign_witness :
    measurementSafeParse
      (Json.obj [("barrelId", Json.str "123e4567-e89b-12d3-a456-426614174000"),
                 ("dirtLevel", Json.num (1234 / 100)), ("weight", Json.num (1501 / 10))]) = true :=
  measurementSchema_checks_format_not_sign.1 "123e4567-e89b-12d3-a456-426614174000"
    (1234 / 100) (1501 / 10) (by decide)
    (by norm_num [float32Max]) (by norm_num [float32Max])
    (by norm_num [float32Max]) (by norm_num [float32Max])

/-- Shared shape of the two response validators: content-type check, parse,
truthiness, schema check, then return the body. -/
lemma checkResponse_aux (p : Json → Bool) (ct : Option String) (body : Option Json) (b : Json) :
    (if contentTypeOk ct then
        match body with
        | some x => if x.truthy && p x then some x else none
        | none => none
      else none) = some b ↔
      (∃ c, ct = some c ∧ strContains c "application/json" = true)
        ∧ body = some b ∧ b.truthy = true ∧ p b = true := by
  by_cases hct : contentTypeOk ct
  · obtain ⟨c, hc⟩ : ∃ c, ct = some c := by
      cases ct with
      | none => simp [contentTypeOk] at hct
      | some c => exact ⟨c, rfl⟩
    subst hc
    have hcc : strContains c "application/json" = true := by
      simpa [contentTypeOk] using hct
    simp only [hct, if_true]
    cases body with
    | none => simp [hcc]
    | some x =>
      dsimp only
      by_cases hx : x.truthy && p x
      · rw [if_pos hx]
        rw [Bool.and_eq_true] at hx
        constructor
        · rintro h
          obtain rfl : x = b := by simpa using h
          exact ⟨⟨c, rfl, hcc⟩, rfl, hx.1, hx.2⟩
        · rintro ⟨_, hb, _, _⟩
          exact hb
      · rw [if_neg hx]
        constructor
        · intro h; cases h
        · rintro ⟨_, hb, ht, hp⟩
          obtain rfl : x = b := by simpa using hb
          exact absurd (by simp [ht, hp]) hx
  · simp only [hct, if_false]
    constructor
    · intro h; cases h
    · rintro ⟨⟨c, hc, hcc⟩, _, _, _⟩
      subst hc
      exact absurd (by simpa [contentTypeOk] using hcc) hct

/-- C2: each response validator returns the parsed body exactly when the
content-type header contains application/json, the body parsed (to a truthy
value) and the relevant schema validation succeeded; on any failure no
value is returned. -/
theorem checkResponseAndReturnBody_success_iff :
    ∀ (r : APIResponseModel) (b : Json),
      (checkBarrelResponseAndReturnBody r = some b ↔
        (∃ c, r.contentType = some c ∧ strContains c "application/json" = true)
          ∧ r.body = some b ∧ b.truthy = true ∧ barrelSafeParse b = true)
      ∧ (checkMeasurementResponseAndReturnBody r = some b ↔
        (∃ c, r.contentType = some c ∧ strContains c "application/json" = true)
          ∧ r.body = some b ∧ b.truthy = true ∧ measurementSafeParse b = true) :=
  fun r b =>
    ⟨checkResponse_aux barrelSafeParse r.contentType r.body b,
     checkResponse_aux measurementSafeParse r.contentType r.body b⟩

/-- C3: prepareBarrelObject is a pure value construction whose result
passes barrelObject.safeParse whenever the three faker draws meet faker's
output guarantees (21 url-safe characters, 26 Crockford characters, 20
letters — all non-empty strings). -/
theorem prepareBarrelObject_conforms :
    ∀ r : BarrelFixtureRandom, barrelFixtureValid r = true →
      barrelSafeParse (prepareBarrelObject r) = true := by
  rintro ⟨q, u, a⟩ h
  simp only [barrelFixtureValid, nanoidValid, ulidValid, alphaValid, Bool.and_eq_true,
    decide_eq_true_eq] at h
  obtain ⟨⟨⟨hq, -⟩, ⟨hu, -⟩⟩, ⟨ha, -⟩⟩ := h
  simp only [prepareBarrelObject, barrelSafeParse, lookupField, optionalField, requiredField,
    isStringMin1]
  simp [hq, hu, ha]

/-- C3 witness: a concrete nanoid, ulid and 20-letter draw. -/
theorem prepareBarrelObject_conforms_witness :
    barrelSafeParse (prepareBarrelObject
      ⟨"V1StGXR8_Z5jdHi6B-myT", "01ARZ3NDEKTSV4RRFFQ69G5FAV", "abcdefghijklmnopqrst"⟩) = true :=
  prepareBarrelObject_conforms
    ⟨"V1StGXR8_Z5jdHi6B-myT", "01ARZ3NDEKTSV4RRFFQ69G5FAV", "abcdefghijklmnopqrst"⟩ (by decide)

/-- C4 counterexample: prepareMeasurementObject applied to a string that is
not UUID-formatted yields a value that fails measurementObject.safeParse,
even with faker-valid dirtLevel and weight; the claim's quantification over
every string barrelId is therefore false. -/
theorem prepareMeasurementObject_nonUuid_fails :
    measurementSafeParse (prepareMeasurementObject "not-a-uuid" 50 150) = false
    ∧ fakerFloatValid 1 95 2 50 ∧ fakerFloatValid 100 200 1 150 := by
  refine ⟨?_, ⟨by norm_num, by norm_num, 5000, by norm_num⟩,
    ⟨by norm_num, by norm_num, 1500, by norm_num⟩⟩
  have hu : isUuid "not-a-uuid" = false := by decide
  simp [prepareMeasurementObject, measurementSafeParse, lookupField, optionalField,
    requiredField, isUuidJson, hu]

/-- C4 (amended): for every UUID-formatted barrelId and faker-valid
dirtLevel (in [1, 95], two fractional digits) and weight (in [100, 200],
one fractional digit), prepareMeasurementObject returns a value conforming
to measurementObject with barrelId equal to the argument. -/
theorem prepareMeasurementObject_conforms_for_uuid :
    ∀ (bid : String) (d w : ℚ), isUuid bid = true →
      fakerFloatValid 1 95 2 d → fakerFloatValid 100 200 1 w →
      measurementSafeParse (prepareMeasurementObject bid d w) = true
      ∧ (prepareMeasurementObject bid d w).getField "barrelId" = some (Json.str bid) := by
  intro bid d w hb hd hw
  obtain ⟨hd1, hd2, -⟩ := hd
  obtain ⟨hw1, hw2, -⟩ := hw
  refine ⟨?_, rfl⟩
  have hd2' : d ≤ float32Max := le_float32Max_of_le_200 (by linarith)
  have hw2' : w ≤ float32Max := le_float32Max_of_le_200 (by linarith)
  have hd1' : -float32Max ≤ d := neg_float32Max_le_of_le (by linarith)
  have hw1' : -float32Max ≤ w := neg_float32Max_le_of_le (by linarith)
  simp [prepareMeasurementObject, measurementSafeParse, lookupField, optionalField,
    requiredField, isUuidJson, hb, isFloat32, hd1', hd2', hw1', hw2']

/-- C4 witness: a concrete UUID and concrete faker draws 12.34 and 150.1. -/
theorem prepareMeasurementObject_conforms_for_uuid_witness :
    measurementSafeParse
      (prepareMeasurementObject "123e4567-e89b-12d3-a456-426614174000"
        (1234 / 100) (1501 / 10)) = true
    ∧ (prepareMeasurementObject "123e4567-e89b-12d3-a456-426614174000"
        (1234 / 100) (1501 / 10)).getField "barrelId"
      = some (Json.str "123e4567-e89b-12d3-a456-426614174000") :=
  prepareMeasurementObject_conforms_for_uuid "123e4567-e89b-12d3-a456-426614174000"
    (1234 / 100) (1501 / 10) (by decide)
    ⟨by norm_num, by norm_num, 1234, by norm_num⟩
    ⟨by norm_num, by norm_num, 1501, by norm_num⟩

/-- C10: neither fixture generator emits an id key: generated create
payloads always leave identifier assignment to the server. -/
theorem fixtureGenerators_omit_id :
    (∀ r : BarrelFixtureRandom, ((prepareBarrelObject r).getField "id").isNone = true)
    ∧ (∀ (bid : String) (d w : ℚ),
        ((prepareMeasurementObject bid d w).getField "id").isNone = true) := by
  constructor
  · intro r
    simp [prepareBarrelObject, Json.getField, lookupField]
  · intro bid d w
    simp [prepareMeasurementObject, Json.getField, lookupField]

/-- The envelope value is an object, hence truthy, and its title and errors
members read back directly. -/
lemma checkErrorResponse_errJson (t : String) (es : List (String × List String)) :
    checkErrorResponse (errJson t es) = decide (t = validationErrorMessage) := by
  simp [checkErrorResponse, errJson, Json.truthy, Json.getField, lookupField, optTruthy]

/-- Serialising a typed errors mapping and looking a key up agrees with
looking the key up in the typed mapping. -/
lemma lookupField_map_str (es : List (String × List String)) (key : String) :
    lookupField (es.map fun ke => (ke.1, Json.arr (ke.2.map Json.str))) key
      = (lookupErrors es key).map fun ms => Json.arr (ms.map Json.str) := by
  induction es with
  | nil => rfl
  | cons ke rest ih =>
    obtain ⟨k, ms⟩ := ke
    by_cases hk : k = key <;> simp [lookupField, lookupErrors, hk, ih]

/-- Reading errors.key out of a typed envelope. -/
lemma errJson_getField2 (t : String) (es : List (String × List String)) (key : String) :
    (errJson t es).getField2 "errors" key
      = (lookupErrors es key).map fun ms => Json.arr (ms.map Json.str) := by
  have h : (errJson t es).getField "errors"
      = some (.obj (es.map fun ke => (ke.1, Json.arr (ke.2.map Json.str)))) := by
    simp [errJson, Json.getField, lookupField]
  simp only [Json.getField2, h, Json.getField]
  exact lookupField_map_str es key

/-- The common shape of the six required-field checkers, characterised on
typed envelopes. -/
lemma requiredFieldChecker_iff (key msg t : String) (es : List (String × List String)) :
    (checkErrorResponse (errJson t es)
      && optTruthy ((errJson t es).getField2 "errors" key)
      && firstIsMsg ((errJson t es).getField2 "errors" key) msg) = true ↔
    t = validationErrorMessage
      ∧ ∃ ms, lookupErrors es key = some ms ∧ ms.head? = some msg := by
  rw [checkErrorResponse_errJson, errJson_getField2]
  cases h : lookupErrors es key with
  | none => simp [optTruthy, firstIsMsg, index0]
  | some ms =>
    cases ms with
    | nil => simp [optTruthy, Json.truthy, firstIsMsg, index0]
    | cons m rest => simp [optTruthy, Json.truthy, firstIsMsg, index0, and_assoc]

/-- C5: each required-field checker passes exactly when the envelope title
equals the fixed validation-error string, the field key is bound in the
errors mapping, and the first message under the key equals (string
equality) the fixed required-field message of that field. -/
theorem requiredFieldCheckers_exact :
    ∀ (t : String) (es : List (String × List String)),
      (checkQrRequiredErrorResponse (errJson t es) = true ↔
        t = validationErrorMessage
          ∧ ∃ ms, lookupErrors es "Qr" = some ms ∧ ms.head? = some "The Qr field is required.")
      ∧ (checkRfidRequiredErrorResponse (errJson t es) = true ↔
        t = validationErrorMessage
          ∧ ∃ ms, lookupErrors es "Rfid" = some ms ∧ ms.head? = some "The Rfid field is required.")
      ∧ (checkNfcRequiredErrorResponse (errJson t es) = true ↔
        t = validationErrorMessage
          ∧ ∃ ms, lookupErrors es "Nfc" = some ms ∧ ms.head? = some "The Nfc field is required.")
      ∧ (checkBarrelIdRequiredErrorResponse (errJson t es) = true ↔
        t = validationErrorMessage
          ∧ ∃ ms, lookupErrors es "BarrelId" = some ms
              ∧ ms.head? = some "The BarrelId field is required.")
      ∧ (checkDirtLevelRequiredErrorResponse (errJson t es) = true ↔
        t = validationErrorMessage
          ∧ ∃ ms, lookupErrors es "DirtLevel" = some ms
              ∧ ms.head? = some "The Dirtlevel field is required.")
      ∧ (checkWeightRequiredErrorResponse (errJson t es) = true ↔
        t = validationErrorMessage
          ∧ ∃ ms, lookupErrors es "Weight" = some ms
              ∧ ms.head? = some "The Weight field is required.") := by
  intro t es
  exact ⟨requiredFieldChecker_iff "Qr" "The Qr field is required." t es,
    requiredFieldChecker_iff "Rfid" "The Rfid field is required." t es,
    requiredFieldChecker_iff "Nfc" "The Nfc field is required." t es,
    requiredFieldChecker_iff "BarrelId" "The BarrelId field is required." t es,
    requiredFieldChecker_iff "DirtLevel" "The Dirtlevel field is required." t es,
    requiredFieldChecker_iff "Weight" "The Weight field is required." t es⟩

/-- C6: the negative-number scenarios assert status 400 and an envelope
whose errors.DirtLevel[0] (resp. errors.Weight[0]) equals exactly the fixed
positivity message; the posted payloads carry the negative number -10 in
the respective field. -/
theorem negativeNumberScenarios_assert_400_and_message :
    (∀ (st : Nat) (t : String) (es : List (String × List String)),
      (dirtLevelNegativeAssertions st (errJson t es) = true ↔
        st = 400 ∧ t = validationErrorMessage
          ∧ ∃ ms, lookupErrors es "DirtLevel" = some ms
              ∧ ms.head? = some "DirtLevel must be positive number")
      ∧ (weightNegativeAssertions st (errJson t es) = true ↔
        st = 400 ∧ t = validationErrorMessage
          ∧ ∃ ms, lookupErrors es "Weight" = some ms
              ∧ ms.head? = some "Weight must be positive number"))
    ∧ (∀ b : String,
        (dirtLevelNegativePayload b).getField "dirtLevel" = some (Json.num (-10))
        ∧ (weightNegativePayload b).getField "weight" = some (Json.num (-10))
        ∧ (-10 : ℚ) < 0) := by
  constructor
  · intro st t es
    constructor
    · unfold dirtLevelNegativeAssertions
      rw [checkErrorResponse_errJson, errJson_getField2]
      cases h : lookupErrors es "DirtLevel" with
      | none => simp [optTruthy, firstIsMsg, index0]
      | some ms =>
        cases ms with
        | nil => simp [optTruthy, Json.truthy, firstIsMsg, index0]
        | cons m rest =>
          simp only [optTruthy, Json.truthy, firstIsMsg, index0, Option.map_some, List.map_cons,
            Bool.and_eq_true, decide_eq_true_eq, Option.some.injEq, List.head?_cons]
          constructor
          · rintro ⟨⟨⟨⟨h400, ht⟩, -⟩, -⟩, hm⟩
            exact ⟨h400, ht, m :: rest, rfl, by simpa using hm⟩
          · rintro ⟨h400, ht, ms', hms', hm⟩
            have hms2 : ms' = m :: rest := by simpa using hms'.symm
            subst hms2
            have hm2 : m = "DirtLevel must be positive number" := by simpa using hm
            subst hm2
            refine ⟨⟨⟨⟨h400, ht⟩, rfl⟩, by simp⟩, by simp⟩
    · unfold weightNegativeAssertions
      rw [checkErrorResponse_errJson, errJson_getField2]
      cases h : lookupErrors es "Weight" with
      | none => simp [optTruthy, firstIsMsg, index0]
      | some ms =>
        cases ms with
        | nil => simp [optTruthy, Json.truthy, firstIsMsg, index0]
        | cons m rest => simp [optTruthy, Json.truthy, firstIsMsg, index0, and_assoc]
  · intro b
    exact ⟨rfl, rfl, by norm_num⟩

/-- C7: the barrel tag fields admit any non-empty string with no upper
length bound — a barrel whose qr, rfid and nfc have any length at least 1
passes barrelObject.safeParse, and an empty-string tag in any of the three
positions fails it; the schema itself encodes no maximum length. -/
theorem barrelTags_nonempty_no_upper_bound :
    (∀ q r f : String, 1 ≤ q.length → 1 ≤ r.length → 1 ≤ f.length →
      barrelSafeParse
        (Json.obj [("qr", Json.str q), ("rfid", Json.str r), ("nfc", Json.str f)]) = true)
    ∧ (∀ r f : String, barrelSafeParse
        (Json.obj [("qr", Json.str ""), ("rfid", Json.str r), ("nfc", Json.str f)]) = false)
    ∧ (∀ q f : String, barrelSafeParse
        (Json.obj [("qr", Json.str q), ("rfid", Json.str ""), ("nfc", Json.str f)]) = false)
    ∧ (∀ q r : String, barrelSafeParse
        (Json.obj [("qr", Json.str q), ("rfid", Json.str r), ("nfc", Json.str "")]) = false) := by
  refine ⟨?_, ?_, ?_, ?_⟩
  · intro q r f hq hr hf
    simp [barrelSafeParse, lookupField, optionalField, requiredField, isStringMin1, hq, hr, hf]
  · intro r f
    simp [barrelSafeParse, lookupField, optionalField, requiredField, isStringMin1]
  · intro q f
    simp [barrelSafeParse, lookupField, optionalField, requiredField, isStringMin1]
  · intro q r
    simp [barrelSafeParse, lookupField, optionalField, requiredField, isStringMin1]

/-- C7 witness: a 10000-character qr (the length probed by the Qr is too
long scenario) with single-character rfid and nfc passes the schema. -/
theorem barrelTags_nonempty_no_upper_bound_witness :
    barrelSafeParse
      (Json.obj [("qr", Json.str (String.mk (List.replicate 10000 'x'))),
                 ("rfid", Json.str "r"), ("nfc", Json.str "f")]) = true :=
  barrelTags_nonempty_no_upper_bound.1 (String.mk (List.replicate 10000 'x')) "r" "f"
    (by rw [String.length_mk, List.length_replicate]; norm_num)
    (by decide) (by decide)

/-- C8: the concurrency scenario builds exactly ten pairwise-distinct
payloads, and its post-join assertion loop passes exactly when every
response independently has status 201 — a condition invariant under any
permutation of the responses, so no ordering between the calls is
required. -/
theorem concurrentScenario_ten_distinct_each201 :
    concurrentBarrelPayloads.length = 10
    ∧ (concurrentBarrelPayloads.map qrOf).Nodup
    ∧ concurrentBarrelPayloads.Nodup
    ∧ (∀ sts : List Nat, concurrentAssertionsPass sts = true ↔ ∀ s ∈ sts, s = 201)
    ∧ (∀ l l' : List Nat, l.Perm l' →
        concurrentAssertionsPass l = concurrentAssertionsPass l') := by
  have hmap : (concurrentBarrelPayloads.map qrOf).Nodup := by decide
  refine ⟨by decide, hmap, hmap.of_map, ?_, ?_⟩
  · intro sts
    simp [concurrentAssertionsPass, List.all_eq_true]
  · intro l l' h
    rw [Bool.eq_iff_iff]
    simp only [concurrentAssertionsPass, List.all_eq_true]
    exact ⟨fun hx s hm => hx s (h.mem_iff.mpr hm), fun hx s hm => hx s (h.mem_iff.mp hm)⟩

/-- C8 witness: the permutation-invariance clause applied to a concrete
two-element reordering. -/
theorem concurrentScenario_ten_distinct_each201_witness :
    concurrentAssertionsPass [201, 404] = concurrentAssertionsPass [404, 201] :=
  concurrentScenario_ten_distinct_each201.2.2.2.2 [201, 404] [404, 201] (by decide)

/-- C9: barrelObject accepts any string id at all (so in particular the
literal not-guid and a ULID), while measurementObject rejects every value
whose id or barrelId is not UUID-formatted; consequently
checkBarrelResponseAndReturnBody succeeds on a well-formed barrel body
whatever its id string is — it can never fail because of a malformed id. -/
theorem idFormat_asymmetry :
    (∀ s q r f : String, 1 ≤ q.length → 1 ≤ r.length → 1 ≤ f.length →
      barrelSafeParse
        (Json.obj [("id", Json.str s), ("qr", Json.str q),
                   ("rfid", Json.str r), ("nfc", Json.str f)]) = true)
    ∧ isUuid "not-guid" = false
    ∧ isUuid "01ARZ3NDEKTSV4RRFFQ69G5FAV" = false
    ∧ (∀ (s bid : String) (d w : ℚ), isUuid s = false →
        measurementSafeParse
          (Json.obj [("id", Json.str s), ("barrelId", Json.str bid),
                     ("dirtLevel", Json.num d), ("weight", Json.num w)]) = false)
    ∧ (∀ (s : String) (d w : ℚ), isUuid s = false →
        measurementSafeParse
          (Json.obj [("barrelId", Json.str s),
                     ("dirtLevel", Json.num d), ("weight", Json.num w)]) = false)
    ∧ (∀ ct s q r f : String, strContains ct "application/json" = true →
        1 ≤ q.length → 1 ≤ r.length → 1 ≤ f.length →
        checkBarrelResponseAndReturnBody
          ⟨some ct, some (Json.obj [("id", Json.str s), ("qr", Json.str q),
                                    ("rfid", Json.str r), ("nfc", Json.str f)])⟩
          = some (Json.obj [("id", Json.str s), ("qr", Json.str q),
                            ("rfid", Json.str r), ("nfc", Json.str f)])) := by
  have hparse : ∀ s q r f : String, 1 ≤ q.length → 1 ≤ r.length → 1 ≤ f.length →
      barrelSafeParse
        (Json.obj [("id", Json.str s), ("qr", Json.str q),
                   ("rfid", Json.str r), ("nfc", Json.str f)]) = true := by
    intro s q r f hq hr hf
    simp [barrelSafeParse, lookupField, optionalField, requiredField, isString, isStringMin1,
      hq, hr, hf]
  refine ⟨hparse, by decide, by decide, ?_, ?_, ?_⟩
  · intro s bid d w hs
    simp [measurementSafeParse, lookupField, optionalField, requiredField, isUuidJson, hs]
  · intro s d w hs
    simp [measurementSafeParse, lookupField, optionalField, requiredField, isUuidJson, hs]
  · intro ct s q r f hct hq hr hf
    exact (checkResponse_aux barrelSafeParse (some ct)
        (some (Json.obj [("id", Json.str s), ("qr", Json.str q),
                         ("rfid", Json.str r), ("nfc", Json.str f)])) _).mpr
      ⟨⟨ct, rfl, hct⟩, rfl, rfl, hparse s q r f hq hr hf⟩

/-- C9 witness: a response whose barrel body carries the malformed id
not-guid still validates and is returned. -/
theorem idFormat_asymmetry_witness :
    checkBarrelResponseAndReturnBody
      ⟨some "application/json; charset=utf-8",
       some (Json.obj [("id", Json.str "not-guid"), ("qr", Json.str "q"),
                       ("rfid", Json.str "r"), ("nfc", Json.str "n")])⟩
      = some (Json.obj [("id", Json.str "not-guid"), ("qr", Json.str "q"),
                        ("rfid", Json.str "r"), ("nfc", Json.str "n")]) :=
  idFormat_asymmetry.2.2.2.2.2 "application/json; charset=utf-8" "not-guid" "q" "r" "n"
    (by decide) (by decide) (by decide) (by decide)

end Theorems

end BarrelMonitor
